import Mathlib

/-!
Shallow embedding of `src/libertem_blobfinder/udf/correlation.py`
(LiberTEM-blobfinder correlation UDFs) and proofs about the claims of the
specification.  Machine floats are embedded as exact rationals `ℚ`,
NumPy integer coordinates as `ℤ`.  Parts of the repository that are not
under `src/` (the numeric engine in `libertem_blobfinder.base.correlation`)
are modelled from the specification and marked as such.
-/

namespace Blobfinder

/-- Python exception values raised by the correlation UDFs: `ValueError` and
`RuntimeError` with their message. -/
inductive PyError where
  | valueError : String → PyError
  | runtimeError : String → PyError
deriving DecidableEq

/-- Array backend tags, embedding the backend constants used by the UDFs
(`BACKEND_NUMPY`, `BACKEND_CUPY`, `BACKEND_SPARSE_COO`, `BACKEND_SPARSE_GCXS`)
together with further tags of the external `sparseconverter` library that a
LiberTEM dataset could in principle advertise (needed to model the
`else`-branches of the dispatch code). -/
inductive ArrayBackend where
  | numpy
  | cupy
  | sparse_coo
  | sparse_gcxs
  | numpy_matrix
  | scipy_coo
  | scipy_csr
  | scipy_csc
  | sparse_dok
  | cupy_scipy_coo
  | cupy_scipy_csr
  | cupy_scipy_csc
deriving DecidableEq

/-- Modelled from the external `sparseconverter` library: the CPU backend
tags among the ones embedded here (`sparseconverter.CPU_BACKENDS`). -/
def CPU_BACKENDS : List ArrayBackend :=
  [.numpy, .numpy_matrix, .scipy_coo, .scipy_csr, .scipy_csc,
   .sparse_coo, .sparse_gcxs, .sparse_dok]

/-- Modelled from the external `sparseconverter` library: the CUDA backend
tags among the ones embedded here (`sparseconverter.CUDA_BACKENDS`). -/
def CUDA_BACKENDS : List ArrayBackend :=
  [.cupy, .cupy_scipy_coo, .cupy_scipy_csr, .cupy_scipy_csc]

/-- The supported backend set of the public interface, spec §6:
dense CPU, GPU, sparse COO, sparse compressed (GCXS). -/
def supportedBackends : List ArrayBackend :=
  [.numpy, .cupy, .sparse_coo, .sparse_gcxs]

/-- Floor of a rational, computed by floor division of numerator by
denominator so that it reduces in the kernel. -/
def ratFloor (x : ℚ) : ℤ := Int.fdiv x.num x.den

/-- NumPy `np.round` (round half to even) on an exact rational. -/
def npRound (x : ℚ) : ℤ :=
  let f : ℤ := ratFloor x
  let frac : ℚ := x - (f : ℚ)
  if frac < 1/2 then f
  else if 1/2 < frac then f + 1
  else if f % 2 = 0 then f else f + 1

/-- NumPy `astype(int)` on a float value: truncation toward zero (C cast). -/
def truncToZero (x : ℚ) : ℤ := if 0 ≤ x then ratFloor x else -(ratFloor (-x))

/-- Embeds `CorrelationUDF.__init__` storage of the peak list:
`peaks=np.round(peaks).astype(int)` applied componentwise
(correlation.py line 30). -/
def correlationUDF_peaks (peaks : List (ℚ × ℚ)) : List (ℤ × ℤ) :=
  peaks.map fun p =>
    (truncToZero ((npRound p.1 : ℤ) : ℚ), truncToZero ((npRound p.2 : ℤ) : ℚ))

/-- Embeds the peak list that `run_fastcorrelation` hands to the UDF:
`peaks = peaks.astype(int)` (truncation toward zero, correlation.py line 436)
followed by the `CorrelationUDF.__init__` storage. -/
def run_fastcorrelation_peaks (peaks : List (ℚ × ℚ)) : List (ℤ × ℤ) :=
  correlationUDF_peaks
    (peaks.map fun p => ((truncToZero p.1 : ℤ), (truncToZero p.2 : ℤ)))

/-- Embeds `CorrelationUDF.get_zero_shift` for the frame-wise view:
`None` becomes `np.array((0, 0))` (correlation.py lines 83-92). -/
def get_zero_shift (zero_shift : Option (ℚ × ℚ)) : ℚ × ℚ :=
  zero_shift.getD (0, 0)

/-- Embeds the effective peak positions used by
`FastCorrelationUDF.process_frame` and `FullFrameCorrelationUDF.process_frame`:
`self.get_peaks() + np.round(self.get_zero_shift()).astype(int)`
(correlation.py lines 163 and 258). -/
def effective_peaks (peaks : List (ℚ × ℚ)) (zero_shift : Option (ℚ × ℚ)) :
    List (ℤ × ℤ) :=
  (correlationUDF_peaks peaks).map fun p =>
    (p.1 + truncToZero ((npRound (get_zero_shift zero_shift).1 : ℤ) : ℚ),
     p.2 + truncToZero ((npRound (get_zero_shift zero_shift).2 : ℤ) : ℚ))

/-- Declaration of one LiberTEM result buffer: kind, extra shape and dtype,
as passed to `self.buffer(...)`. -/
structure BufferDecl where
  kind : String
  extra_shape : List ℕ
  dtype : String
deriving DecidableEq

/-- Embeds `CorrelationUDF.get_result_buffers` (correlation.py lines 32-64):
the four common buffers, in declaration order of the Python dict. -/
def correlationUDF_get_result_buffers (num_disks : ℕ) :
    List (String × BufferDecl) :=
  [("centers", ⟨"nav", [num_disks, 2], "int32"⟩),
   ("refineds", ⟨"nav", [num_disks, 2], "float32"⟩),
   ("peak_values", ⟨"nav", [num_disks], "float32"⟩),
   ("peak_elevations", ⟨"nav", [num_disks], "float32"⟩)]

/-- Embeds `SparseCorrelationUDF.get_result_buffers`
(correlation.py lines 305-320): the super buffers updated with the
`corr` buffer of shape `(num_disks * (2*steps+1)^2,)`. -/
def sparseCorrelationUDF_get_result_buffers (num_disks steps : ℕ) :
    List (String × BufferDecl) :=
  correlationUDF_get_result_buffers num_disks ++
    [("corr", ⟨"nav", [num_disks * (2 * steps + 1) ^ 2], "float32"⟩)]

/-- Embeds the scratch-buffer byte budget of `FastCorrelationUDF.__init__`:
`self.limit = kwargs.get('__limit', 2**19)` (correlation.py line 122). -/
def fastCorrelation_limit (limit_kwarg : Option ℕ) : ℕ :=
  limit_kwarg.getD (2 ^ 19)

/-- Embeds the scratch-buffer byte budget of `FullFrameCorrelationUDF.__init__`:
`self.limit = kwargs.get('__limit', 2**19)` (correlation.py line 212). -/
def fullFrameCorrelation_limit (limit_kwarg : Option ℕ) : ℕ :=
  limit_kwarg.getD (2 ^ 19)

/-- The parameters stored by `SparseCorrelationUDF.__init__` via
`super().__init__` once construction succeeds. -/
structure SparseParams where
  peaks : List (ℤ × ℤ)
  steps : ℕ
  zero_shift : Option (ℚ × ℚ)
deriving DecidableEq

/-- Embeds `SparseCorrelationUDF.__init__` (correlation.py lines 284-303):
`super().__init__` stores the rounded peaks, `steps` and the `zero_shift`
kwarg, then a non-`None` `zero_shift` raises `ValueError` before any
processing. -/
def sparseCorrelationUDF_init (peaks : List (ℚ × ℚ)) (steps : ℕ)
    (zero_shift : Option (ℚ × ℚ)) : Except PyError SparseParams :=
  let params : SparseParams :=
    { peaks := correlationUDF_peaks peaks, steps := steps,
      zero_shift := zero_shift }
  if params.zero_shift.isSome then
    Except.error
      (PyError.valueError "Parameter zero_shift not supported for SparseCorrelationUDF")
  else
    Except.ok params

/-- The two crop routines of `libertem_blobfinder.base.correlation` that
`get_task_data` can select between. -/
inductive CropFunction where
  | crop_disks_from_frame
  | crop_disks_from_frame_slicing
deriving DecidableEq

/-- Embeds the crop-function dispatch of `FastCorrelationUDF.get_task_data`
(correlation.py lines 137-143): sparse COO/GCXS and CuPy select
`crop_disks_from_frame_slicing`, NumPy selects `crop_disks_from_frame`,
anything else raises `RuntimeError`. -/
def fastCorrelation_crop_function (b : ArrayBackend) :
    Except PyError CropFunction :=
  if b = .sparse_coo ∨ b = .sparse_gcxs ∨ b = .cupy then
    Except.ok .crop_disks_from_frame_slicing
  else if b = .numpy then
    Except.ok .crop_disks_from_frame
  else
    Except.error (PyError.runtimeError "Unsupported array backend")

/-- Embeds the crop-function dispatch of
`FullFrameCorrelationUDF.get_task_data` (correlation.py lines 229-235),
identical in structure to the fast strategy's dispatch. -/
def fullFrameCorrelation_crop_function (b : ArrayBackend) :
    Except PyError CropFunction :=
  if b = .sparse_coo ∨ b = .sparse_gcxs ∨ b = .cupy then
    Except.ok .crop_disks_from_frame_slicing
  else if b = .numpy then
    Except.ok .crop_disks_from_frame
  else
    Except.error (PyError.runtimeError "Unsupported array backend")

/-- Embeds the backend dispatch of `SparseCorrelationUDF.get_task_data`
(correlation.py lines 346-359): CPU backends use `'numpy'`, CUDA backends
`'cupy'`, anything else raises `ValueError`; then the `use_sparse` format is
selected and any other tag raises `RuntimeError`.  Returns the selected
`(backend, use_sparse)` pair. -/
def sparseCorrelation_task_dispatch (b : ArrayBackend) :
    Except PyError (String × String) := do
  let backend ←
    if b ∈ CPU_BACKENDS then Except.ok "numpy"
    else if b ∈ CUDA_BACKENDS then Except.ok "cupy"
    else Except.error (PyError.valueError "Unknown device class")
  let use_sparse ←
    if b = .sparse_coo then Except.ok "sparse.pydata"
    else if b = .sparse_gcxs then Except.ok "sparse.pydata.GCXS"
    else if b = .cupy ∨ b = .numpy then Except.ok "scipy.sparse.csc"
    else Except.error (PyError.runtimeError "Unsupported array backend")
  return (backend, use_sparse)

/-- Decides whether an `Except` result is an error (a raised exception). -/
def raisesError {α : Type} : Except PyError α → Bool
  | .error _ => true
  | .ok _ => false

/-- Embeds `FastCorrelationUDF.get_backends` (correlation.py lines 171-177). -/
def fastCorrelation_get_backends : List ArrayBackend :=
  [.numpy, .cupy, .sparse_coo, .sparse_gcxs]

/-- Embeds `FullFrameCorrelationUDF.get_backends`
(correlation.py lines 269-275): sparse backends are not declared, to
trigger auto-densification. -/
def fullFrameCorrelation_get_backends : List ArrayBackend :=
  [.numpy, .cupy]

/-- Embeds `SparseCorrelationUDF.get_backends`
(correlation.py lines 400-406). -/
def sparseCorrelation_get_backends : List ArrayBackend :=
  [.numpy, .cupy, .sparse_coo, .sparse_gcxs]

/-- Result record for one peak (spec §3): integer center, sub-pixel refined
center, peak height and peak elevation. -/
structure PeakResult where
  center : ℤ × ℤ
  refined : ℚ × ℚ
  height : ℚ
  elevation : ℚ
deriving DecidableEq

/-- Row-major list of the index pairs of an `h × w` patch. -/
def rectIndices (h w : ℕ) : List (ℕ × ℕ) :=
  (List.range h).flatMap fun i => (List.range w).map fun j => (i, j)

/-- First index pair (in list order, i.e. row-major like `np.argmax`)
attaining the maximal value of `r`. -/
def argmaxIdx (r : ℕ → ℕ → ℚ) : List (ℕ × ℕ) → ℕ × ℕ → ℕ × ℕ
  | [], best => best
  | x :: xs, best => argmaxIdx r xs (if r best.1 best.2 < r x.1 x.2 then x else best)

/-- Fold of `max` over a list with a default for the empty list. -/
def listMaxD (l : List ℚ) (d : ℚ) : ℚ := l.foldl max d

/-- Fold of `min` over a list with a default for the empty list. -/
def listMinD (l : List ℚ) (d : ℚ) : ℚ := l.foldl min d

/-- One-dimensional quadratic sub-pixel refinement from the values at the
maximum and its two neighbours (spec §4.5: quadratic fit on the local
neighborhood); zero offset when the fit degenerates. -/
def quadRefine (prev cur next : ℚ) : ℚ :=
  let denom := 2 * (2 * cur - prev - next)
  if denom = 0 then 0 else (next - prev) / denom

/-- Modelled from the spec: the peak evaluator `evaluate_correlations` of
`libertem_blobfinder.base.correlation`, which is not under `src/`.
Spec §4.5: locate the maximum of the response patch (row-major first
maximum), map it back to image coordinates via the patch base coordinate,
refine by a quadratic fit on the direct neighbours, take the height at the
maximum, and compute a non-negative elevation score as the margin between
the peak response and the secondary maximum relative to the patch's
contrast (zero for a flat patch). -/
def evaluatePatch (r : ℕ → ℕ → ℚ) (n : ℕ) (base : ℤ × ℤ) : PeakResult :=
  let idx := rectIndices n n
  let m := argmaxIdx r idx (0, 0)
  let height := r m.1 m.2
  let center : ℤ × ℤ := (base.1 + m.1, base.2 + m.2)
  let rc : ℕ → ℕ → ℚ := fun i j => r (min i (n - 1)) (min j (n - 1))
  let dy := quadRefine (rc (m.1 - 1) m.2) height (rc (m.1 + 1) m.2)
  let dx := quadRefine (rc m.1 (m.2 - 1)) height (rc m.1 (m.2 + 1))
  let others := (idx.filter fun p => p ≠ m).map fun p => r p.1 p.2
  let secondary := match others with
    | [] => height
    | v :: vs => listMaxD vs v
  let vals := idx.map fun p => r p.1 p.2
  let contrast := listMaxD vals height - listMinD vals height
  let elevation := if contrast = 0 then 0 else max 0 ((height - secondary) / contrast)
  { center := center,
    refined := ((center.1 : ℚ) + dy, (center.2 : ℚ) + dx),
    height := height,
    elevation := elevation }

/-- Modelled from the spec: the crop-based engine `process_frame_fast` of
`libertem_blobfinder.base.correlation`, which is not under `src/`.
Spec §4.4: for each peak, crop a `2·crop_size` window of the (pre-scaled)
frame centred at the peak position, cross-correlate it (circularly, as an
FFT correlation does) with the template, and evaluate the response patch,
mapping patch indices back to image coordinates at the window corner. -/
def processFrameFastModel (frame template : ℤ → ℤ → ℚ) (crop_size : ℕ)
    (scale : ℚ → ℚ) (peaks : List (ℤ × ℤ)) : List PeakResult :=
  peaks.map fun e =>
    let n := 2 * crop_size
    let w : ℕ → ℕ → ℚ := fun dy dx =>
      scale (frame (e.1 - crop_size + dy) (e.2 - crop_size + dx))
    let corr : ℕ → ℕ → ℚ := fun dy dx =>
      ((rectIndices n n).map fun t =>
        template t.1 t.2 * w ((t.1 + dy) % n) ((t.2 + dx) % n)).sum
    evaluatePatch corr n (e.1 - crop_size, e.2 - crop_size)

/-- Modelled from the spec: the single full-frame correlation map of
`process_frame_full` in `libertem_blobfinder.base.correlation`, which is
not under `src/`.  Spec §4.4: correlate the template against the whole
(pre-scaled) `h × w` frame once, circularly as an FFT correlation does. -/
def frameCorrMapModel (frame template : ℤ → ℤ → ℚ) (h w : ℕ)
    (scale : ℚ → ℚ) : ℤ → ℤ → ℚ := fun y x =>
  ((rectIndices h w).map fun t =>
    template t.1 t.2 * scale (frame ((y + t.1) % (h : ℤ)) ((x + t.2) % (w : ℤ)))).sum

/-- Modelled from the spec: the full-frame engine `process_frame_full` of
`libertem_blobfinder.base.correlation`, which is not under `src/`.
Spec §4.4: compute one correlation map per frame, then for each peak crop
the map at the peak position and evaluate that window. -/
def processFrameFullModel (frame template : ℤ → ℤ → ℚ) (h w crop_size : ℕ)
    (scale : ℚ → ℚ) (peaks : List (ℤ × ℤ)) : List PeakResult :=
  let corrMap := frameCorrMapModel frame template h w scale
  peaks.map fun e =>
    let n := 2 * crop_size
    evaluatePatch
      (fun dy dx => corrMap (e.1 - crop_size + dy) (e.2 - crop_size + dx)) n
      (e.1 - crop_size, e.2 - crop_size)

/-- Embeds `FastCorrelationUDF.process_frame` (correlation.py lines 158-169):
the peaks handed to the engine are
`self.get_peaks() + np.round(self.get_zero_shift()).astype(int)`
(the `effective_peaks` of this embedding); the engine itself is the
spec-modelled `processFrameFastModel`. -/
def fastCorrelationUDF_process_frame (frame template : ℤ → ℤ → ℚ)
    (crop_size : ℕ) (scale : ℚ → ℚ) (peaks : List (ℚ × ℚ))
    (zero_shift : Option (ℚ × ℚ)) : List PeakResult :=
  processFrameFastModel frame template crop_size scale
    (effective_peaks peaks zero_shift)

/-- Embeds `FullFrameCorrelationUDF.process_frame`
(correlation.py lines 251-267): same effective-peak expression as the fast
strategy, with the spec-modelled full-frame engine. -/
def fullFrameCorrelationUDF_process_frame (frame template : ℤ → ℤ → ℚ)
    (h w crop_size : ℕ) (scale : ℚ → ℚ) (peaks : List (ℚ × ℚ))
    (zero_shift : Option (ℚ × ℚ)) : List PeakResult :=
  processFrameFullModel frame template h w crop_size scale
    (effective_peaks peaks zero_shift)

/-- Contribution of one flattened tile (a list of pairs of flattened pixel
index and pixel value) to slot `k` of the `corr` accumulator: row `k` of
`sl.dot(tile_t)` in `SparseCorrelationUDF.process_tile`
(correlation.py lines 370-376), with the mask stack row restricted to the
tile's pixels and `log_scale` abstracted as `scale`. -/
def tileContribution (mask : ℕ → ℕ → ℚ) (scale : ℚ → ℚ)
    (tile : List (ℕ × ℚ)) (k : ℕ) : ℚ :=
  (tile.map fun pv => mask k pv.1 * scale pv.2).sum

/-- Embeds the accumulation of `SparseCorrelationUDF.process_tile`
(correlation.py lines 370-376): each tile's contribution is added
(`self.results.corr[:] += ...`) into the zero-initialised `corr` buffer;
this is the value of slot `k` after all tiles of one frame were processed,
as handed to `postprocess`. -/
def accumulateCorr (mask : ℕ → ℕ → ℚ) (scale : ℚ → ℚ)
    (tiles : List (List (ℕ × ℚ))) (k : ℕ) : ℚ :=
  tiles.foldl (fun acc t => acc + tileContribution mask scale t k) 0

/-- Lists of integer peaks cast to the rational-valued public interface. -/
def intPeaksQ (peaks : List (ℤ × ℤ)) : List (ℚ × ℚ) :=
  peaks.map fun p => ((p.1 : ℚ), (p.2 : ℚ))

/-- Shift every peak of an integer peak list by the vector `v`. -/
def shiftPeaks (peaks : List (ℤ × ℤ)) (v : ℤ × ℤ) : List (ℤ × ℤ) :=
  peaks.map fun p => (p.1 + v.1, p.2 + v.2)

/-- Concrete mask stack used in witness statements. -/
def exampleMask : ℕ → ℕ → ℚ := fun k p => (k : ℚ) + (p : ℚ)

instance exceptDecidableEq {ε α : Type} [DecidableEq ε] [DecidableEq α] :
    DecidableEq (Except ε α) := fun x y =>
  match x, y with
  | .ok a, .ok b =>
    if h : a = b then isTrue (h ▸ rfl)
    else isFalse fun hh => h (Except.ok.inj hh)
  | .ok _, .error _ => isFalse fun hh => Except.noConfusion hh
  | .error _, .ok _ => isFalse fun hh => Except.noConfusion hh
  | .error e, .error f =>
    if h : e = f then isTrue (h ▸ rfl)
    else isFalse fun hh => h (Except.error.inj hh)

theorem ratFloor_intCast (n : ℤ) : ratFloor (n : ℚ) = n := by
  simp [ratFloor, Rat.intCast_num, Rat.intCast_den]

theorem npRound_intCast (n : ℤ) : npRound (n : ℚ) = n := by
  simp [npRound, ratFloor_intCast]

theorem truncToZero_intCast (n : ℤ) : truncToZero (n : ℚ) = n := by
  unfold truncToZero
  by_cases h : (0 : ℚ) ≤ (n : ℚ)
  · simp [h, ratFloor_intCast]
  · have hneg : (-(n : ℚ)) = ((-n : ℤ) : ℚ) := by push_cast; ring
    rw [if_neg h, hneg, ratFloor_intCast, neg_neg]

theorem npRound_zero : npRound (0 : ℚ) = 0 := by
  simpa using npRound_intCast 0

theorem truncToZero_zero : truncToZero (0 : ℚ) = 0 := by
  simpa using truncToZero_intCast 0

theorem correlationUDF_peaks_eq_round (peaks : List (ℚ × ℚ)) :
    correlationUDF_peaks peaks = peaks.map fun p => (npRound p.1, npRound p.2) := by
  simp [correlationUDF_peaks, truncToZero_intCast]

theorem correlationUDF_peaks_intCast (peaks : List (ℤ × ℤ)) :
    correlationUDF_peaks (intPeaksQ peaks) = peaks := by
  simp [correlationUDF_peaks, intPeaksQ, List.map_map, Function.comp_def,
    npRound_intCast, truncToZero_intCast]

theorem foldl_add_eq_sum {α : Type} (f : α → ℚ) (l : List α) (a : ℚ) :
    l.foldl (fun acc t => acc + f t) a = a + (l.map f).sum := by
  induction l generalizing a with
  | nil => simp
  | cons x xs ih => simp [ih, add_assoc]

theorem accumulateCorr_eq_flatten_sum (mask : ℕ → ℕ → ℚ) (scale : ℚ → ℚ)
    (tiles : List (List (ℕ × ℚ))) (k : ℕ) :
    accumulateCorr mask scale tiles k
      = (tiles.flatten.map fun pv => mask k pv.1 * scale pv.2).sum := by
  unfold accumulateCorr
  rw [foldl_add_eq_sum, zero_add]
  rw [List.map_flatten, List.sum_flatten, List.map_map]
  simp [tileContribution, Function.comp_def]

/-- C1 (counterexample): the claim that `run_fastcorrelation` passes peaks
rounded to the nearest integer is false: for the input coordinate 2.7 the
wrapper's `peaks.astype(int)` truncates to 2, whereas round-to-nearest
gives 3. -/
theorem run_fastcorrelation_truncates_counterexample :
    run_fastcorrelation_peaks [(27/10, 0)] = [(2, 0)]
    ∧ npRound (27/10 : ℚ) = 3 := by
  with_unfolding_all decide

/-- C1 (amended): `CorrelationUDF.__init__` stores the input peaks rounded to
the nearest integer, so peaks given directly to a UDF are correlated at
`round(c)`; `run_fastcorrelation`, however, first truncates the peaks toward
zero with `astype(int)`, so through that wrapper the engine correlates at
`trunc(c)`, not `round(c)`. -/
theorem peak_coordinates_rounding (peaks : List (ℚ × ℚ)) :
    correlationUDF_peaks peaks
      = (peaks.map fun p => (npRound p.1, npRound p.2))
    ∧ run_fastcorrelation_peaks peaks
      = (peaks.map fun p => (truncToZero p.1, truncToZero p.2)) := by
  constructor
  · exact correlationUDF_peaks_eq_round peaks
  · simp [run_fastcorrelation_peaks, correlationUDF_peaks, List.map_map,
      Function.comp_def, npRound_intCast, truncToZero_intCast]

/-- C2 (counterexample): `SparseCorrelationUDF.get_result_buffers` does not
declare the same buffer set as the other strategies: it additionally exposes
the internal tile accumulator as the `corr` result buffer. -/
theorem sparse_corr_buffer_exposed_counterexample :
    "corr" ∈ (sparseCorrelationUDF_get_result_buffers 1 1).map Prod.fst
    ∧ (sparseCorrelationUDF_get_result_buffers 1 1).map Prod.fst
      ≠ (correlationUDF_get_result_buffers 1).map Prod.fst := by
  decide

/-- C2 (amended): the sparse strategy declares the four common buffers
`centers`, `refineds`, `peak_values`, `peak_elevations` plus one additional
result buffer `corr` of kind `nav`, shape `(num_disks * (2*steps+1)^2,)`
and dtype float32: its internal tile accumulator IS exposed as a result
buffer. -/
theorem sparse_result_buffer_declaration (num_disks steps : ℕ) :
    (sparseCorrelationUDF_get_result_buffers num_disks steps).map Prod.fst
      = ["centers", "refineds", "peak_values", "peak_elevations", "corr"]
    ∧ sparseCorrelationUDF_get_result_buffers num_disks steps
      = correlationUDF_get_result_buffers num_disks ++
          [("corr", ⟨"nav", [num_disks * (2 * steps + 1) ^ 2], "float32"⟩)] :=
  ⟨rfl, rfl⟩

/-- C3: constructing `SparseCorrelationUDF` with any non-`None` `zero_shift`
raises `ValueError` during construction, before any frame or tile is
processed; construction with `zero_shift` absent/`None` succeeds, storing
the rounded peaks and the step count. -/
theorem sparse_zero_shift_fatal (peaks : List (ℚ × ℚ)) (steps : ℕ)
    (zero_shift : Option (ℚ × ℚ)) :
    (zero_shift ≠ none →
      sparseCorrelationUDF_init peaks steps zero_shift
        = Except.error (PyError.valueError
            "Parameter zero_shift not supported for SparseCorrelationUDF"))
    ∧ sparseCorrelationUDF_init peaks steps none
        = Except.ok ⟨correlationUDF_peaks peaks, steps, none⟩ := by
  constructor
  · intro h
    unfold sparseCorrelationUDF_init
    cases zero_shift with
    | none => exact absurd rfl h
    | some z => rfl
  · rfl

/-- Witness for C3 at a concrete non-`None` zero shift. -/
theorem sparse_zero_shift_fatal_witness :
    sparseCorrelationUDF_init [] 1 (some (1, 2))
      = Except.error (PyError.valueError
          "Parameter zero_shift not supported for SparseCorrelationUDF") :=
  (sparse_zero_shift_fatal [] 1 (some (1, 2))).1 (by decide)

/-- C4: the accumulated sparse correlation response is independent of tile
arrival order and of how the frame is partitioned into tiles: whenever two
tile lists carry the same pixel contributions (their flattened pixel lists
are permutations of each other, which holds both for a permutation of the
tiles and for a re-partitioning of the same frame), every slot of the
zero-initialised `corr` accumulator ends up with the same value. -/
theorem sparse_accumulation_order_independent (mask : ℕ → ℕ → ℚ)
    (scale : ℚ → ℚ) (tiles tiles' : List (List (ℕ × ℚ)))
    (hperm : List.Perm tiles.flatten tiles'.flatten) (k : ℕ) :
    accumulateCorr mask scale tiles k = accumulateCorr mask scale tiles' k := by
  rw [accumulateCorr_eq_flatten_sum, accumulateCorr_eq_flatten_sum]
  exact (hperm.map _).sum_eq

/-- Witness for C4: two one-pixel tiles accumulated in both orders. -/
theorem sparse_accumulation_order_independent_witness :
    accumulateCorr exampleMask id [[(0, 1)], [(1, 2)]] 0
      = accumulateCorr exampleMask id [[(1, 2)], [(0, 1)]] 0 :=
  sparse_accumulation_order_independent exampleMask id
    [[(0, 1)], [(1, 2)]] [[(1, 2)], [(0, 1)]] (by decide) 0

/-- C5 (counterexample): shifting the peak list by `v = (1, 0)` and setting
`zero_shift = v` does not reproduce shifting the peak list by `-v` with
`zero_shift = 0`: on an all-zero frame with peaks `[(5, 5)]` the two runs
report different integer centers (the first correlates at `(7, 5)`, the
second at `(4, 5)`). -/
theorem zero_shift_property_counterexample :
    fastCorrelationUDF_process_frame (fun _ _ => 0) (fun _ _ => 0) 1 id
        [(6, 5)] (some (1, 0))
      ≠ fastCorrelationUDF_process_frame (fun _ _ => 0) (fun _ _ => 0) 1 id
        [(4, 5)] (some (0, 0)) := by
  with_unfolding_all decide

/-- C5 (amended): because `process_frame` adds the rounded zero shift to the
peak positions, running with the peak list shifted by `v` and
`zero_shift = v` produces the same four result arrays as running with the
peak list shifted by `2·v` (not `-v`) and `zero_shift = 0`, for integer
peak lists and integer `v`; this holds for both the crop-based and the
full-frame strategy. -/
theorem zero_shift_double_shift_equivalence (frame template : ℤ → ℤ → ℚ)
    (h w crop_size : ℕ) (scale : ℚ → ℚ) (peaks : List (ℤ × ℤ)) (v : ℤ × ℤ) :
    fastCorrelationUDF_process_frame frame template crop_size scale
        (intPeaksQ (shiftPeaks peaks v)) (some ((v.1 : ℚ), (v.2 : ℚ)))
      = fastCorrelationUDF_process_frame frame template crop_size scale
        (intPeaksQ (shiftPeaks peaks (2 * v.1, 2 * v.2))) none
    ∧ fullFrameCorrelationUDF_process_frame frame template h w crop_size scale
        (intPeaksQ (shiftPeaks peaks v)) (some ((v.1 : ℚ), (v.2 : ℚ)))
      = fullFrameCorrelationUDF_process_frame frame template h w crop_size scale
        (intPeaksQ (shiftPeaks peaks (2 * v.1, 2 * v.2))) none := by
  have key : effective_peaks (intPeaksQ (shiftPeaks peaks v))
        (some ((v.1 : ℚ), (v.2 : ℚ)))
      = effective_peaks (intPeaksQ (shiftPeaks peaks (2 * v.1, 2 * v.2))) none := by
    unfold effective_peaks get_zero_shift
    rw [correlationUDF_peaks_intCast, correlationUDF_peaks_intCast]
    unfold shiftPeaks
    rw [List.map_map, List.map_map]
    refine List.map_congr_left ?_
    intro p _
    simp [Function.comp_def, npRound_intCast, truncToZero_intCast,
      npRound_zero, truncToZero_zero]
    constructor <;> ring
  exact ⟨congrArg (processFrameFastModel frame template crop_size scale) key,
    congrArg (processFrameFullModel frame template h w crop_size scale) key⟩

/-- C6: for every array-backend tag outside the supported enumerated set
 {numpy, cupy, sparse COO, sparse GCXS}, and only for those, each of the
three strategies raises a fatal configuration error (`RuntimeError` or
`ValueError`) in its `get_task_data` dispatch, before any image is
processed. -/
theorem unsupported_backend_fatal (b : ArrayBackend) :
    b ∉ supportedBackends ↔
      (raisesError (fastCorrelation_crop_function b) = true
       ∧ raisesError (fullFrameCorrelation_crop_function b) = true
       ∧ raisesError (sparseCorrelation_task_dispatch b) = true) := by
  cases b <;> decide

/-- C7: in the crop-based and full-frame strategies the backend tag selects
the crop routine in `get_task_data`: numpy selects `crop_disks_from_frame`,
while cupy and both sparse backends select
`crop_disks_from_frame_slicing`. -/
theorem crop_function_dispatch :
    fastCorrelation_crop_function .numpy = Except.ok .crop_disks_from_frame
    ∧ fullFrameCorrelation_crop_function .numpy
      = Except.ok .crop_disks_from_frame
    ∧ fastCorrelation_crop_function .cupy
      = Except.ok .crop_disks_from_frame_slicing
    ∧ fastCorrelation_crop_function .sparse_coo
      = Except.ok .crop_disks_from_frame_slicing
    ∧ fastCorrelation_crop_function .sparse_gcxs
      = Except.ok .crop_disks_from_frame_slicing
    ∧ fullFrameCorrelation_crop_function .cupy
      = Except.ok .crop_disks_from_frame_slicing
    ∧ fullFrameCorrelation_crop_function .sparse_coo
      = Except.ok .crop_disks_from_frame_slicing
    ∧ fullFrameCorrelation_crop_function .sparse_gcxs
      = Except.ok .crop_disks_from_frame_slicing := by
  decide

/-- C8: the scratch-buffer byte budget defaults to exactly `2^19` bytes
(half a megabyte, 524288 bytes) in both the crop-based and the full-frame
strategy when no `__limit` kwarg is supplied. -/
theorem default_limit_half_megabyte :
    fastCorrelation_limit none = 2 ^ 19
    ∧ fullFrameCorrelation_limit none = 2 ^ 19
    ∧ fastCorrelation_limit none = 524288
    ∧ fullFrameCorrelation_limit none = 524288 := by
  decide

/-- C9: in the crop-based and full-frame strategies the zero shift is
rounded to the nearest integer and then added to the stored integer peaks:
the effective peak locations are `peaks + round(zero_shift)`, and replacing
a zero shift by its rounded value leaves all four results of both
strategies unchanged. -/
theorem zero_shift_rounded_before_add (frame template : ℤ → ℤ → ℚ)
    (h w crop_size : ℕ) (scale : ℚ → ℚ) (peaks : List (ℚ × ℚ)) (zs : ℚ × ℚ) :
    effective_peaks peaks (some zs)
      = ((correlationUDF_peaks peaks).map fun p =>
          (p.1 + npRound zs.1, p.2 + npRound zs.2))
    ∧ fastCorrelationUDF_process_frame frame template crop_size scale peaks
        (some zs)
      = fastCorrelationUDF_process_frame frame template crop_size scale peaks
        (some ((npRound zs.1 : ℚ), (npRound zs.2 : ℚ)))
    ∧ fullFrameCorrelationUDF_process_frame frame template h w crop_size scale
        peaks (some zs)
      = fullFrameCorrelationUDF_process_frame frame template h w crop_size scale
        peaks (some ((npRound zs.1 : ℚ), (npRound zs.2 : ℚ))) := by
  have key : effective_peaks peaks (some zs)
      = effective_peaks peaks
          (some ((npRound zs.1 : ℚ), (npRound zs.2 : ℚ))) := by
    unfold effective_peaks get_zero_shift
    simp [npRound_intCast]
  refine ⟨?_, congrArg (processFrameFastModel frame template crop_size scale) key,
    congrArg (processFrameFullModel frame template h w crop_size scale) key⟩
  unfold effective_peaks get_zero_shift
  simp [truncToZero_intCast]

/-- C10: the full-frame strategy declares only the numpy and cupy backends,
excluding both sparse backends, while the crop-based and sparse strategies
declare both sparse backends. -/
theorem fullframe_backends_exclude_sparse :
    fullFrameCorrelation_get_backends = [.numpy, .cupy]
    ∧ ArrayBackend.sparse_coo ∉ fullFrameCorrelation_get_backends
    ∧ ArrayBackend.sparse_gcxs ∉ fullFrameCorrelation_get_backends
    ∧ ArrayBackend.sparse_coo ∈ fastCorrelation_get_backends
    ∧ ArrayBackend.sparse_gcxs ∈ fastCorrelation_get_backends
    ∧ ArrayBackend.sparse_coo ∈ sparseCorrelation_get_backends
    ∧ ArrayBackend.sparse_gcxs ∈ sparseCorrelation_get_backends := by
  decide

end Blobfinder
